import Mathlib

/-!
# Verification of the job-portal backend (job search filter compiler,
pagination, and job/application service operations)

Shallow embedding of the TypeScript sources:

* `src/services/job.service.ts` — `JobService.getAllJobs`, `JobService.searchJobs`
  (the filter compiler: where-clause construction and ordering directive),
  `JobService.applyToJob`, `JobService.deleteJob`, `JobService.expireOldJobs`.
* `src/controllers/base.controller.ts` — `BaseController.getPaginationParams`.

Conventions of the embedding:

* Timestamps (`Date` values, `new Date()` instants) are integers (epoch
  milliseconds).  Each JavaScript `new Date()` evaluation becomes an explicit
  `now : Int` parameter; code that evaluates `new Date()` twice receives two
  parameters.
* Database `null` becomes `Option.none`.  Prisma comparison filters
  (`gt`/`gte`/`lte`, `contains`, field equality against a non-null constant)
  do not match rows whose field is `null`; the evaluation functions below
  return `false` on `none` accordingly.
* JavaScript truthiness on optional strings (`if (category)`) is
  `some s` with `s ≠ ""`; on optional numbers (`if (salaryMin)`) it is
  `some n` with `n ≠ 0` (query values are parsed numbers, never `NaN` here);
  `x !== undefined` is `Option.isSome`.
* A thrown `AppError` becomes `Except.error`; a thrown error performs no
  database write, so an `Except.error` result models an unchanged store.
* Relational data is modelled as lists of rows.  For the read-only search
  queries a `JobRow` is the job row joined with the data the predicate needs
  from its relations (the owning company's name, the associated skill ids).
  Result-set ordering is abstracted as the store's enumeration order; the
  ordering directive itself (`orderBy` construction) is modelled separately
  and the predicates and counts do not depend on ordering.
-/

/-- Job lifecycle status (`JobStatus` enum of the Prisma schema, as used by
the service code: DRAFT, PUBLISHED, CLOSED, EXPIRED). -/
inductive JobStatus where
  | DRAFT
  | PUBLISHED
  | CLOSED
  | EXPIRED
deriving Repr, DecidableEq

/-- User role enum (JOB_SEEKER / EMPLOYER / ADMIN). -/
inductive UserRole where
  | JOB_SEEKER
  | EMPLOYER
  | ADMIN
deriving Repr, DecidableEq

/-- Application status enum (PENDING → REVIEWED/SHORTLISTED → ACCEPTED/REJECTED). -/
inductive ApplicationStatus where
  | PENDING
  | REVIEWED
  | SHORTLISTED
  | ACCEPTED
  | REJECTED
deriving Repr, DecidableEq

/-- Sort direction ("asc" | "desc"). -/
inductive SortOrder where
  | asc
  | desc
deriving Repr, DecidableEq

/-- `AppError` from `src/utils/AppError.ts` as thrown by the services:
a message plus an HTTP status code. -/
structure AppError where
  message : String
  statusCode : Nat
deriving Repr, DecidableEq

/-- A job row joined with the relation data the search predicate reads:
the owning company's name (for the `search` clause) and the ids of the
associated skills (for the `skills` clause).  Field `jobType` embeds the
source field named `type`. -/
structure JobRow where
  id : String
  title : String
  description : String
  requirements : Option String
  responsibilities : Option String
  jobType : String
  experienceLevel : String
  salaryMin : Option Int
  salaryMax : Option Int
  location : Option String
  isRemote : Bool
  status : JobStatus
  expiresAt : Option Int
  categoryId : Option String
  companyName : String
  skillIds : List String
deriving Repr, DecidableEq

/-- `JobFilters` from `src/types/api.types.ts` (the fields `searchJobs`
destructures).  `jobType` embeds the source field named `type`. -/
structure JobFilters where
  search : Option String := none
  category : Option String := none
  jobType : Option String := none
  location : Option String := none
  salaryMin : Option Int := none
  salaryMax : Option Int := none
  isRemote : Option Bool := none
  experienceLevel : Option String := none
  skills : Option (List String) := none
  sortBy : Option String := none
  sortOrder : Option SortOrder := none
deriving Repr, DecidableEq

/-- JavaScript truthiness of an optional string query value:
`undefined` and `""` are falsy. -/
def truthyStr : Option String → Bool
  | none => false
  | some s => s ≠ ""

/-- JavaScript truthiness of an optional numeric query value:
`undefined` and `0` are falsy. -/
def truthyInt : Option Int → Bool
  | none => false
  | some n => n ≠ 0

/-- Character-list prefix test (kernel-reducible helper for the substring
semantics of Prisma `contains`). -/
def leadsWith : List Char → List Char → Bool
  | [], _ => true
  | _ :: _, [] => false
  | a :: as, b :: bs => a == b && leadsWith as bs

/-- Character-list substring occurrence test. -/
def occursIn (pat : List Char) : List Char → Bool
  | [] => pat.isEmpty
  | c :: cs => leadsWith pat (c :: cs) || occursIn pat cs

/-- Case-insensitive substring test, the semantics of Prisma
`contains` with `mode: insensitive`. -/
def ciContains (hay pat : String) : Bool :=
  occursIn (pat.data.map Char.toLower) (hay.data.map Char.toLower)

/-- Prisma `contains` applied to a nullable column: a `null` field never
matches. -/
def optContains (hay : Option String) (pat : String) : Bool :=
  match hay with
  | some s => ciContains s pat
  | none => false

/-- A leaf condition of the where clause that `searchJobs` constructs:
each constructor is one of the field filters the source writes as a
Prisma condition object. -/
inductive JobCond where
  | expiresAtNull
  | expiresAtGt (t : Int)
  | titleContains (s : String)
  | descriptionContains (s : String)
  | requirementsContains (s : String)
  | responsibilitiesContains (s : String)
  | companyNameContains (s : String)
  | salaryMinGte (n : Int)
  | salaryMaxGte (n : Int)
  | salaryMaxLte (n : Int)
deriving Repr, DecidableEq

/-- An element of the `AND` array built by `searchJobs`: either a single
condition or a Prisma `OR` of leaf conditions (the shapes the source
actually pushes: the search `OR` block and the salaryMin `OR` block, and
the plain salaryMax condition). -/
inductive AndCond where
  | leaf (c : JobCond)
  | anyOf (cs : List JobCond)
deriving Repr, DecidableEq

/-- The `whereClause` object accumulated by `searchJobs` (and used, in its
baseline-only form, by `getAllJobs`).  Top-level keys of a Prisma where
object combine conjunctively; absent keys are `none`.
`jobSkillsSomeIn ss` embeds `jobSkills: { some: { skillId: { in: ss } } }`;
`jobType` embeds the key named `type`. -/
structure WhereClause where
  status : Option JobStatus := none
  «OR» : Option (List JobCond) := none
  AND : Option (List AndCond) := none
  categoryId : Option String := none
  jobType : Option String := none
  location : Option String := none
  isRemote : Option Bool := none
  experienceLevel : Option String := none
  jobSkillsSomeIn : Option (List String) := none
deriving Repr, DecidableEq

/-- Evaluation of a leaf condition against a (joined) job row, following
Prisma semantics (`null` fields fail comparison and `contains` filters;
`expiresAt: null` matches exactly the `null` rows). -/
def JobCond.eval (j : JobRow) : JobCond → Bool
  | .expiresAtNull => j.expiresAt.isNone
  | .expiresAtGt t =>
    match j.expiresAt with
    | some e => t < e
    | none => false
  | .titleContains s => ciContains j.title s
  | .descriptionContains s => ciContains j.description s
  | .requirementsContains s => optContains j.requirements s
  | .responsibilitiesContains s => optContains j.responsibilities s
  | .companyNameContains s => ciContains j.companyName s
  | .salaryMinGte n =>
    match j.salaryMin with
    | some v => n ≤ v
    | none => false
  | .salaryMaxGte n =>
    match j.salaryMax with
    | some v => n ≤ v
    | none => false
  | .salaryMaxLte n =>
    match j.salaryMax with
    | some v => v ≤ n
    | none => false

/-- Evaluation of an `AND`-array element: a Prisma `OR` holds when any
member holds. -/
def AndCond.eval (j : JobRow) : AndCond → Bool
  | .leaf c => c.eval j
  | .anyOf cs => cs.any (JobCond.eval j)

/-- Evaluation of the whole where clause: the conjunction of every present
top-level key (Prisma's implicit top-level AND). -/
def WhereClause.eval (w : WhereClause) (j : JobRow) : Bool :=
  (match w.status with
   | none => true
   | some s => j.status = s) &&
  (match w.OR with
   | none => true
   | some cs => cs.any (JobCond.eval j)) &&
  (match w.AND with
   | none => true
   | some cs => cs.all (AndCond.eval j)) &&
  (match w.categoryId with
   | none => true
   | some c => j.categoryId = some c) &&
  (match w.jobType with
   | none => true
   | some t => j.jobType = t) &&
  (match w.location with
   | none => true
   | some l => optContains j.location l) &&
  (match w.isRemote with
   | none => true
   | some b => j.isRemote = b) &&
  (match w.experienceLevel with
   | none => true
   | some e => j.experienceLevel = e) &&
  (match w.jobSkillsSomeIn with
   | none => true
   | some ss => j.skillIds.any (fun sk => ss.contains sk))

/-- The baseline where object
`{ status: "PUBLISHED", OR: [{ expiresAt: null }, { expiresAt: { gt: now } }] }`
that both `getAllJobs` queries use and that `searchJobs` starts from. -/
def publishedActiveWhere (now : Int) : WhereClause :=
  { status := some .PUBLISHED
    «OR» := some [.expiresAtNull, .expiresAtGt now] }

/-- The `if (search && search.trim().length > 0)` block of `searchJobs`:
sets `AND` to the five-field case-insensitive `OR` search block. -/
def addSearch (f : JobFilters) (w : WhereClause) : WhereClause :=
  match f.search with
  | none => w
  | some s =>
    if s.trim.length > 0 then
      { w with AND := some [AndCond.anyOf
          [.titleContains s.trim, .descriptionContains s.trim,
           .requirementsContains s.trim, .responsibilitiesContains s.trim,
           .companyNameContains s.trim]] }
    else w

/-- The `if (category)` block. -/
def addCategory (f : JobFilters) (w : WhereClause) : WhereClause :=
  if truthyStr f.category then { w with categoryId := f.category } else w

/-- The `if (type)` block. -/
def addType (f : JobFilters) (w : WhereClause) : WhereClause :=
  if truthyStr f.jobType then { w with jobType := f.jobType } else w

/-- The `if (location && !isRemote)` block: in JavaScript `!isRemote` is
true when `isRemote` is `undefined` or `false`, so the location clause is
added only when `isRemote` is not supplied as `true`. -/
def addLocation (f : JobFilters) (w : WhereClause) : WhereClause :=
  if truthyStr f.location && !(f.isRemote = some true) then
    { w with location := f.location }
  else w

/-- The `if (isRemote !== undefined)` block. -/
def addIsRemote (f : JobFilters) (w : WhereClause) : WhereClause :=
  match f.isRemote with
  | some b => { w with isRemote := some b }
  | none => w

/-- The `if (experienceLevel)` block. -/
def addExperienceLevel (f : JobFilters) (w : WhereClause) : WhereClause :=
  if truthyStr f.experienceLevel then
    { w with experienceLevel := f.experienceLevel }
  else w

/-- The salary filter block:
`if (salaryMin || salaryMax) { AND = AND || []; if (salaryMin) push OR-block;
if (salaryMax) push lte-block }`.  Note the JavaScript truthiness: a salary
bound supplied as `0` is falsy and adds no clause. -/
def addSalary (f : JobFilters) (w : WhereClause) : WhereClause :=
  if truthyInt f.salaryMin || truthyInt f.salaryMax then
    let conds := w.AND.getD []
    let conds :=
      if truthyInt f.salaryMin then
        conds ++ [AndCond.anyOf
          [.salaryMinGte (f.salaryMin.getD 0), .salaryMaxGte (f.salaryMin.getD 0)]]
      else conds
    let conds :=
      if truthyInt f.salaryMax then
        conds ++ [AndCond.leaf (.salaryMaxLte (f.salaryMax.getD 0))]
      else conds
    { w with AND := some conds }
  else w

/-- The `if (skills && skills.length > 0)` block. -/
def addSkills (f : JobFilters) (w : WhereClause) : WhereClause :=
  match f.skills with
  | none => w
  | some ss => if ss.length > 0 then { w with jobSkillsSomeIn := some ss } else w

/-- The full where-clause construction of `searchJobs`
(lines 132–234 of `src/services/job.service.ts`): the baseline object, then
each conditional block in source order.  `now` is the single `new Date()`
instant evaluated when the baseline object is built. -/
def buildWhereClause (f : JobFilters) (now : Int) : WhereClause :=
  addSkills f (addSalary f (addExperienceLevel f (addIsRemote f
    (addLocation f (addType f (addCategory f (addSearch f
      (publishedActiveWhere now))))))))

/-- The ordering directive produced by `searchJobs` (lines 236–244):
either a single job attribute with a direction, or the owning company's
name with a direction. -/
inductive OrderBy where
  | field (name : String) (dir : SortOrder)
  | companyName (dir : SortOrder)
deriving Repr, DecidableEq

/-- The sort-clause construction of `searchJobs`: destructuring defaults
`sortBy = "createdAt"`, `sortOrder = "desc"`, then
`"salary"` ↦ `salaryMax`, `"company"` ↦ company name, anything else ↦ the
identically named attribute. -/
def buildOrderBy (sortBy : Option String) (sortOrder : Option SortOrder) : OrderBy :=
  let sb := sortBy.getD "createdAt"
  let so := sortOrder.getD .desc
  if sb = "salary" then .field "salaryMax" so
  else if sb = "company" then .companyName so
  else .field sb so

/-- `searchJobs` result: the page (filter, then `skip`/`take`) and the
total count.  Both queries use the one `whereClause` value, which captured
a single `now`. -/
def searchJobs (db : List JobRow) (f : JobFilters) (skip limit : Nat)
    (now : Int) : List JobRow × Nat :=
  let w := buildWhereClause f now
  (((db.filter (fun j => w.eval j)).drop skip).take limit,
   (db.filter (fun j => w.eval j)).length)

/-- `getAllJobs` (lines 46–112): the paged fetch and the count each build
their own where object, and each of the two objects evaluates its own
`new Date()`; `nowFetch` and `nowCount` are those two instants. -/
def getAllJobs (db : List JobRow) (skip limit : Nat)
    (nowFetch nowCount : Int) : List JobRow × Nat :=
  (((db.filter (fun j => (publishedActiveWhere nowFetch).eval j)).drop skip).take limit,
   (db.filter (fun j => (publishedActiveWhere nowCount).eval j)).length)

/-- A persisted job row as the mutating service operations see it
(the fields `applyToJob`, `deleteJob` and `expireOldJobs` read or write). -/
structure Job where
  id : String
  companyId : String
  status : JobStatus
  expiresAt : Option Int
  updatedAt : Int
deriving Repr, DecidableEq

/-- A company row (the fields the ownership checks read). -/
structure Company where
  id : String
  ownerId : String
deriving Repr, DecidableEq

/-- A user row; `resumeUrl` flattens `user.profile?.resumeUrl` (the only
profile field `applyToJob` reads). -/
structure User where
  id : String
  role : UserRole
  resumeUrl : Option String
deriving Repr, DecidableEq

/-- An application row (`jobId`, `applicantId` form the unique compound
key `jobId_applicantId`). -/
structure Application where
  jobId : String
  applicantId : String
  coverLetter : Option String
  resumeUrl : Option String
  status : ApplicationStatus
deriving Repr, DecidableEq

/-- A job–skill association row. -/
structure JobSkill where
  jobId : String
  skillId : String
  isRequired : Bool
deriving Repr, DecidableEq

/-- The relational store as the mutating operations see it. -/
structure DB where
  jobs : List Job
  companies : List Company
  users : List User
  applications : List Application
  jobSkills : List JobSkill
deriving Repr, DecidableEq

/-- `job.findUnique({ where: { id } })`. -/
def findJob (db : DB) (jobId : String) : Option Job :=
  db.jobs.find? (fun j => j.id = jobId)

/-- `company` relation lookup for a job's `include: { company: true }`. -/
def findCompany (db : DB) (companyId : String) : Option Company :=
  db.companies.find? (fun c => c.id = companyId)

/-- `user.findUnique({ where: { id } })`. -/
def findUser (db : DB) (userId : String) : Option User :=
  db.users.find? (fun u => u.id = userId)

/-- `application.findUnique({ where: { jobId_applicantId: { jobId, applicantId } } })`. -/
def findApplication (db : DB) (jobId applicantId : String) : Option Application :=
  db.applications.find? (fun a => a.jobId = jobId && a.applicantId = applicantId)

/-- `_count.applications` for a job: the number of application rows of the job. -/
def countApplications (db : DB) (jobId : String) : Nat :=
  (db.applications.filter (fun a => a.jobId = jobId)).length

/-- The body of `applyToJob` (`ApplyToJobData`). -/
structure ApplyToJobData where
  coverLetter : Option String := none
  resumeUrl : Option String := none
deriving Repr, DecidableEq

/-- JavaScript `a || b` on optional strings (`resumeUrl || user.profile?.resumeUrl`):
an absent or empty first operand falls back to the second. -/
def jsStrOr (a b : Option String) : Option String :=
  match a with
  | some s => if s ≠ "" then some s else b
  | none => b

/-- The expiry check of `applyToJob`:
`job.expiresAt && job.expiresAt < new Date()` (a `Date` object is always
truthy, so the conjunction is a null check plus a strict comparison). -/
def applyExpired (job : Job) (now : Int) : Bool :=
  match job.expiresAt with
  | some t => t < now
  | none => false

/-- `JobService.applyToJob` (lines 704–785): guard chain
404 job absent → 400 not PUBLISHED → 400 expired (`expiresAt < now`, the
`new Date()` of the expiry check) → 403 not a JOB_SEEKER → 409 duplicate
application → insert `Application` with status PENDING.  An error result
models the thrown `AppError` (no write happens). -/
def applyToJob (db : DB) (jobId userId : String) (data : ApplyToJobData)
    (now : Int) : Except AppError DB :=
  match findJob db jobId with
  | none => .error ⟨"Job not found", 404⟩
  | some job =>
    if job.status ≠ .PUBLISHED then
      .error ⟨"This job is not accepting applications", 400⟩
    else if applyExpired job now then
      .error ⟨"This job posting has expired", 400⟩
    else
      match findUser db userId with
      | none => .error ⟨"Only job seekers can apply to jobs", 403⟩
      | some user =>
        if user.role ≠ .JOB_SEEKER then
          .error ⟨"Only job seekers can apply to jobs", 403⟩
        else if (findApplication db jobId userId).isSome then
          .error ⟨"You have already applied to this job", 409⟩
        else
          .ok { db with applications := db.applications ++
            [{ jobId := jobId
               applicantId := userId
               coverLetter := data.coverLetter.map String.trim
               resumeUrl := jsStrOr data.resumeUrl user.resumeUrl
               status := .PENDING }] }

/-- Modelled from the spec: the Prisma schema file is not under `src/`; per
the spec's deleteJob contract ("hard delete, cascades JobSkill") and the
source comment "cascades to job skills due to Prisma schema", deleting a
job row also removes all of its `JobSkill` rows. -/
def deleteJobRow (db : DB) (jobId : String) : DB :=
  { db with
    jobs := db.jobs.filter (fun j => j.id ≠ jobId)
    jobSkills := db.jobSkills.filter (fun s => s.jobId ≠ jobId) }

/-- `JobService.deleteJob` (lines 624–656): 404 job absent → 403 not the
owner of the job's company → 400 when the job has applications → hard
delete with `JobSkill` cascade.  A job's `include: { company: true }` is
never `null` in a store satisfying the schema's foreign key; a dangling
`companyId` is mapped to the 404 branch (unreachable under that
integrity). -/
def deleteJob (db : DB) (jobId userId : String) : Except AppError DB :=
  match findJob db jobId with
  | none => .error ⟨"Job not found", 404⟩
  | some job =>
    match findCompany db job.companyId with
    | none => .error ⟨"Job not found", 404⟩
    | some company =>
      if company.ownerId ≠ userId then
        .error ⟨"You can only delete your own jobs", 403⟩
      else if countApplications db jobId > 0 then
        .error ⟨"Cannot delete job with existing applications. Close the job instead.", 400⟩
      else
        .ok (deleteJobRow db jobId)

/-- The `updateMany` predicate of `expireOldJobs`:
`{ status: "PUBLISHED", expiresAt: { lte: now } }` (a `null` `expiresAt`
does not match `lte`). -/
def shouldExpire (now : Int) (j : Job) : Bool :=
  j.status = .PUBLISHED &&
  (match j.expiresAt with
   | some t => t ≤ now
   | none => false)

/-- `JobService.expireOldJobs` (lines 1240–1258): one `new Date()` is
taken as `now`; `updateMany` sets every matching row's status to EXPIRED
(and `updatedAt` to `now`) and returns the number of rows it matched. -/
def expireOldJobs (db : DB) (now : Int) : DB × Nat :=
  ({ db with jobs := db.jobs.map (fun j =>
      if shouldExpire now j then { j with status := .EXPIRED, updatedAt := now }
      else j) },
   (db.jobs.filter (shouldExpire now)).length)

/-- The parsed pagination query of a request: `none` models an absent or
unparsable (`NaN`) value of `parseInt(req.query...)`. -/
structure PaginationQuery where
  page : Option Int := none
  limit : Option Int := none
deriving Repr, DecidableEq

/-- JavaScript `parseInt(x) || d`: `NaN` (absent/unparsable) and `0` fall
back to the default; any other parsed value, including a negative one,
passes through. -/
def jsIntOr (v : Option Int) (d : Int) : Int :=
  match v with
  | none => d
  | some n => if n = 0 then d else n

/-- `BaseController.getPaginationParams` (lines 12–18 of
`src/controllers/base.controller.ts`): `(page, limit, skip)` with
`page = parseInt(query.page) || 1`,
`limit = Math.min(parseInt(query.limit) || 10, 50)`,
`skip = (page - 1) * limit`. -/
def getPaginationParams (q : PaginationQuery) : Int × Int × Int :=
  let page := jsIntOr q.page 1
  let limit := min (jsIntOr q.limit 10) 50
  let skip := (page - 1) * limit
  (page, limit, skip)

example :
    truthyInt (some 0) = false ∧ truthyInt (some 5000) = true ∧
    truthyStr (some "") = false := by decide

/-! ## Field-preservation lemmas for the where-clause pipeline stages -/

lemma addSearch_status (f : JobFilters) (w : WhereClause) :
    (addSearch f w).status = w.status := by
  unfold addSearch; (repeat' split) <;> rfl

lemma addSearch_OR (f : JobFilters) (w : WhereClause) :
    (addSearch f w).OR = w.OR := by
  unfold addSearch; (repeat' split) <;> rfl

lemma addSearch_location (f : JobFilters) (w : WhereClause) :
    (addSearch f w).location = w.location := by
  unfold addSearch; (repeat' split) <;> rfl

lemma addSearch_jobSkillsSomeIn (f : JobFilters) (w : WhereClause) :
    (addSearch f w).jobSkillsSomeIn = w.jobSkillsSomeIn := by
  unfold addSearch; (repeat' split) <;> rfl

lemma addCategory_status (f : JobFilters) (w : WhereClause) :
    (addCategory f w).status = w.status := by
  unfold addCategory; split <;> rfl

lemma addCategory_OR (f : JobFilters) (w : WhereClause) :
    (addCategory f w).OR = w.OR := by
  unfold addCategory; split <;> rfl

lemma addCategory_location (f : JobFilters) (w : WhereClause) :
    (addCategory f w).location = w.location := by
  unfold addCategory; split <;> rfl

lemma addCategory_jobSkillsSomeIn (f : JobFilters) (w : WhereClause) :
    (addCategory f w).jobSkillsSomeIn = w.jobSkillsSomeIn := by
  unfold addCategory; split <;> rfl

lemma addType_status (f : JobFilters) (w : WhereClause) :
    (addType f w).status = w.status := by
  unfold addType; split <;> rfl

lemma addType_OR (f : JobFilters) (w : WhereClause) :
    (addType f w).OR = w.OR := by
  unfold addType; split <;> rfl

lemma addType_location (f : JobFilters) (w : WhereClause) :
    (addType f w).location = w.location := by
  unfold addType; split <;> rfl

lemma addType_jobSkillsSomeIn (f : JobFilters) (w : WhereClause) :
    (addType f w).jobSkillsSomeIn = w.jobSkillsSomeIn := by
  unfold addType; split <;> rfl

lemma addLocation_status (f : JobFilters) (w : WhereClause) :
    (addLocation f w).status = w.status := by
  unfold addLocation; split <;> rfl

lemma addLocation_OR (f : JobFilters) (w : WhereClause) :
    (addLocation f w).OR = w.OR := by
  unfold addLocation; split <;> rfl

lemma addLocation_jobSkillsSomeIn (f : JobFilters) (w : WhereClause) :
    (addLocation f w).jobSkillsSomeIn = w.jobSkillsSomeIn := by
  unfold addLocation; split <;> rfl

lemma addIsRemote_status (f : JobFilters) (w : WhereClause) :
    (addIsRemote f w).status = w.status := by
  unfold addIsRemote; split <;> rfl

lemma addIsRemote_OR (f : JobFilters) (w : WhereClause) :
    (addIsRemote f w).OR = w.OR := by
  unfold addIsRemote; split <;> rfl

lemma addIsRemote_location (f : JobFilters) (w : WhereClause) :
    (addIsRemote f w).location = w.location := by
  unfold addIsRemote; split <;> rfl

lemma addIsRemote_jobSkillsSomeIn (f : JobFilters) (w : WhereClause) :
    (addIsRemote f w).jobSkillsSomeIn = w.jobSkillsSomeIn := by
  unfold addIsRemote; split <;> rfl

lemma addExperienceLevel_status (f : JobFilters) (w : WhereClause) :
    (addExperienceLevel f w).status = w.status := by
  unfold addExperienceLevel; split <;> rfl

lemma addExperienceLevel_OR (f : JobFilters) (w : WhereClause) :
    (addExperienceLevel f w).OR = w.OR := by
  unfold addExperienceLevel; split <;> rfl

lemma addExperienceLevel_location (f : JobFilters) (w : WhereClause) :
    (addExperienceLevel f w).location = w.location := by
  unfold addExperienceLevel; split <;> rfl

lemma addExperienceLevel_jobSkillsSomeIn (f : JobFilters) (w : WhereClause) :
    (addExperienceLevel f w).jobSkillsSomeIn = w.jobSkillsSomeIn := by
  unfold addExperienceLevel; split <;> rfl

lemma addSalary_status (f : JobFilters) (w : WhereClause) :
    (addSalary f w).status = w.status := by
  unfold addSalary; split <;> rfl

lemma addSalary_OR (f : JobFilters) (w : WhereClause) :
    (addSalary f w).OR = w.OR := by
  unfold addSalary; split <;> rfl

lemma addSalary_location (f : JobFilters) (w : WhereClause) :
    (addSalary f w).location = w.location := by
  unfold addSalary; split <;> rfl

lemma addSalary_jobSkillsSomeIn (f : JobFilters) (w : WhereClause) :
    (addSalary f w).jobSkillsSomeIn = w.jobSkillsSomeIn := by
  unfold addSalary; split <;> rfl

lemma addSkills_status (f : JobFilters) (w : WhereClause) :
    (addSkills f w).status = w.status := by
  unfold addSkills; (repeat' split) <;> rfl

lemma addSkills_OR (f : JobFilters) (w : WhereClause) :
    (addSkills f w).OR = w.OR := by
  unfold addSkills; (repeat' split) <;> rfl

lemma addSkills_location (f : JobFilters) (w : WhereClause) :
    (addSkills f w).location = w.location := by
  unfold addSkills; (repeat' split) <;> rfl

/-- The compiled clause always carries the baseline status filter. -/
lemma buildWhereClause_status (f : JobFilters) (now : Int) :
    (buildWhereClause f now).status = some .PUBLISHED := by
  unfold buildWhereClause
  rw [addSkills_status, addSalary_status, addExperienceLevel_status,
    addIsRemote_status, addLocation_status, addType_status, addCategory_status,
    addSearch_status]
  rfl

/-- The compiled clause always carries the baseline expiry disjunction with
the single `now` captured when the clause object was built. -/
lemma buildWhereClause_OR (f : JobFilters) (now : Int) :
    (buildWhereClause f now).OR = some [.expiresAtNull, .expiresAtGt now] := by
  unfold buildWhereClause
  rw [addSkills_OR, addSalary_OR, addExperienceLevel_OR, addIsRemote_OR,
    addLocation_OR, addType_OR, addCategory_OR, addSearch_OR]
  rfl

example :
    ciContains "Senior Engineer, Paris office" "paris" = true ∧
    ciContains "Remote only" "paris" = false := by decide

/-! ## C4 — pagination clamping -/

/-- C4: the claimed pagination contract holds for a limit of 1000 (clamped
to 50), an absent limit (10), an absent page (1) and a page of 0 (1), but a
negative page is NOT clamped: `parseInt("-5") || 1` keeps `-5`, giving the
negative skip `-60`, contradicting the claim that skip is never negative. -/
theorem getPaginationParams_negative_page_not_clamped :
    getPaginationParams { page := none, limit := some 1000 } = (1, 50, 0) ∧
    getPaginationParams { page := none, limit := none } = (1, 10, 0) ∧
    getPaginationParams { page := some 0, limit := none } = (1, 10, 0) ∧
    getPaginationParams { page := some (-5), limit := none } = (-5, 10, -60) ∧
    (getPaginationParams { page := some (-5), limit := none }).2.2 < 0 := by
  decide

/-! ## C1 — fetch and count predicates and their `now` instants -/

/-- A published job that expires at instant 11 (between the two `new Date()`
evaluations of `getAllJobs` in the scenario below). -/
def jobRowExpiring : JobRow :=
  { id := "job-1", title := "Backend Engineer", description := "Build APIs"
    requirements := none, responsibilities := none, jobType := "FULL_TIME"
    experienceLevel := "MID", salaryMin := none, salaryMax := none
    location := none, isRemote := false, status := .PUBLISHED
    expiresAt := some 11, categoryId := none, companyName := "Acme"
    skillIds := [] }

/-- C1 (code bug): `getAllJobs` evaluates `new Date()` separately in the
`findMany` where object and in the `count` where object.  With the fetch
instant 10 and the count instant 11, a job expiring at 11 is on the page
(its predicate matched one job) while the returned total is 0, so the total
does not equal the count of the predicate that produced the page.
`searchJobs`, by contrast, builds one clause value with a single `now` and
passes that same value to both queries (see `searchJobs` and
`buildWhereClause_OR`). -/
theorem getAllJobs_total_uses_second_now :
    getAllJobs [jobRowExpiring] 0 10 10 11 = ([jobRowExpiring], 0) ∧
    (List.filter (fun j => (publishedActiveWhere 10).eval j)
      [jobRowExpiring]).length = 1 := by
  decide

/-! ## C5 — ordering directive -/

/-- C5: the ordering directive is `salaryMax` for `sortBy = "salary"`, the
owning company's name for `sortBy = "company"`, the identically named job
attribute for any other supplied `sortBy`, and `createdAt` descending when
both are absent; the requested direction applies, defaulting to
descending. -/
theorem searchJobs_order_directive (sb : String) (so : Option SortOrder) :
    buildOrderBy (some "salary") so = .field "salaryMax" (so.getD .desc) ∧
    buildOrderBy (some "company") so = .companyName (so.getD .desc) ∧
    (sb ≠ "salary" → sb ≠ "company" →
      buildOrderBy (some sb) so = .field sb (so.getD .desc)) ∧
    buildOrderBy none none = .field "createdAt" .desc := by
  refine ⟨rfl, rfl, ?_, rfl⟩
  intro h1 h2
  simp [buildOrderBy, h1, h2]

/-- Witness for `searchJobs_order_directive`: an unknown sort key is passed
through as the sort field with the requested ascending direction. -/
theorem searchJobs_order_directive_witness :
    ("title" ≠ "salary") ∧ ("title" ≠ "company") ∧
    buildOrderBy (some "title") (some .asc) = .field "title" .asc :=
  ⟨by decide, by decide,
   (searchJobs_order_directive "title" (some .asc)).2.2.1 (by decide) (by decide)⟩

/-! ## C10 — a requested salary bound of zero is ignored -/

/-- C10: supplying `salaryMin = 0` (or `salaryMax = 0`) compiles exactly
the same where clause as omitting the field: `0` is falsy in the
`if (salaryMin || salaryMax)` / `if (salaryMin)` / `if (salaryMax)`
guards, so a zero bound contributes no clause. -/
theorem searchJobs_zero_salary_ignored (f : JobFilters) (now : Int) :
    (f.salaryMin = some 0 →
      buildWhereClause f now = buildWhereClause { f with salaryMin := none } now) ∧
    (f.salaryMax = some 0 →
      buildWhereClause f now = buildWhereClause { f with salaryMax := none } now) := by
  constructor
  · intro h
    simp only [buildWhereClause, addSkills, addSalary, addExperienceLevel,
      addIsRemote, addLocation, addType, addCategory, addSearch, h, truthyInt]
    simp
  · intro h
    simp only [buildWhereClause, addSkills, addSalary, addExperienceLevel,
      addIsRemote, addLocation, addType, addCategory, addSearch, h, truthyInt]
    simp

/-- Witness for `searchJobs_zero_salary_ignored`: a filter supplying
`salaryMin = 0` and `salaryMax = 0` compiles like the empty salary
request. -/
theorem searchJobs_zero_salary_ignored_witness :
    (({ salaryMin := some 0, salaryMax := some 0 } : JobFilters).salaryMin = some 0) ∧
    buildWhereClause { salaryMin := some 0, salaryMax := some 0 } 7 =
      buildWhereClause { salaryMin := none, salaryMax := some 0 } 7 :=
  ⟨rfl, (searchJobs_zero_salary_ignored { salaryMin := some 0, salaryMax := some 0 } 7).1 rfl⟩

/-! ## C2 — isRemote=true suppresses the location clause -/

/-- No leaf condition of the `AND`/`OR` blocks reads the job's location
field (the location filter is a separate top-level key). -/
lemma jobCond_eval_set_location (j : JobRow) (l : Option String) (c : JobCond) :
    JobCond.eval { j with location := l } c = JobCond.eval j c := by
  cases c <;> rfl

lemma andCond_eval_set_location (j : JobRow) (l : Option String) (c : AndCond) :
    AndCond.eval { j with location := l } c = AndCond.eval j c := rfl

/-- C2: when `isRemote` is supplied as `true` together with a location
string, the compiled clause is identical to the one compiled without the
location, its location key is absent, and no job's admission depends on
its location field. -/
theorem searchJobs_remote_suppresses_location (f : JobFilters) (now : Int)
    (h : f.isRemote = some true) :
    buildWhereClause f now = buildWhereClause { f with location := none } now ∧
    (buildWhereClause f now).location = none ∧
    (∀ (j : JobRow) (l : Option String),
      (buildWhereClause f now).eval { j with location := l } =
        (buildWhereClause f now).eval j) := by
  have hloc : ∀ w, addLocation f w = w := by
    intro w
    unfold addLocation
    simp [h]
  have hloc2 : ∀ w, addLocation { f with location := none } w = w := by
    intro w
    unfold addLocation
    simp [truthyStr]
  have heq : buildWhereClause f now = buildWhereClause { f with location := none } now := by
    unfold buildWhereClause
    rw [hloc, hloc2]
    rfl
  have hnone : (buildWhereClause f now).location = none := by
    unfold buildWhereClause
    rw [addSkills_location, addSalary_location, addExperienceLevel_location,
      addIsRemote_location, hloc, addType_location, addCategory_location,
      addSearch_location]
    rfl
  refine ⟨heq, hnone, ?_⟩
  intro j l
  unfold WhereClause.eval
  rw [hnone]
  rfl

/-- Witness for `searchJobs_remote_suppresses_location`: a concrete filter
supplying both `isRemote = true` and `location = "Paris"`. -/
theorem searchJobs_remote_suppresses_location_witness :
    (({ isRemote := some true, location := some "Paris" } : JobFilters).isRemote
        = some true) ∧
    buildWhereClause { isRemote := some true, location := some "Paris" } 3 =
      buildWhereClause
        { ({ isRemote := some true, location := some "Paris" } : JobFilters)
            with location := none } 3 :=
  ⟨rfl, (searchJobs_remote_suppresses_location
    { isRemote := some true, location := some "Paris" } 3 rfl).1⟩

/-! ## C6 — the baseline predicate is always implied -/

/-- C6: any job admitted by the compiled predicate of any filter request
satisfies the baseline: its status is PUBLISHED and it either never
expires or expires strictly after the `now` captured at compile time. -/
theorem searchJobs_baseline_always (f : JobFilters) (now : Int) (j : JobRow)
    (h : (buildWhereClause f now).eval j = true) :
    j.status = JobStatus.PUBLISHED ∧
    (j.expiresAt = none ∨ ∃ t, j.expiresAt = some t ∧ now < t) := by
  unfold WhereClause.eval at h
  rw [buildWhereClause_status, buildWhereClause_OR] at h
  simp only [Bool.and_eq_true, decide_eq_true_eq, List.any_eq_true] at h
  obtain ⟨⟨⟨⟨⟨⟨⟨⟨hst, hor⟩, -⟩, -⟩, -⟩, -⟩, -⟩, -⟩, -⟩ := h
  refine ⟨hst, ?_⟩
  obtain ⟨c, hc, he⟩ := hor
  cases hexp : j.expiresAt with
  | none => exact Or.inl rfl
  | some t =>
    refine Or.inr ⟨t, rfl, ?_⟩
    simp only [List.mem_cons, List.mem_singleton, List.not_mem_nil] at hc
    rcases hc with rfl | rfl | hfalse
    · rw [JobCond.eval] at he
      rw [hexp] at he
      simp at he
    · rw [JobCond.eval] at he
      rw [hexp] at he
      simpa using he
    · cases hfalse

/-- A published, never-expiring job row used by several witnesses. -/
def jobRowEvergreen : JobRow :=
  { id := "job-2", title := "Data Engineer", description := "Pipelines"
    requirements := none, responsibilities := none, jobType := "FULL_TIME"
    experienceLevel := "SENIOR", salaryMin := some 3000, salaryMax := some 6000
    location := some "Paris", isRemote := false, status := .PUBLISHED
    expiresAt := none, categoryId := none, companyName := "Acme"
    skillIds := ["s1"] }

/-- Witness for `searchJobs_baseline_always`: the empty filter admits the
evergreen row, which indeed is PUBLISHED and has no expiry. -/
theorem searchJobs_baseline_always_witness :
    ((buildWhereClause {} 5).eval jobRowEvergreen = true) ∧
    (jobRowEvergreen.status = JobStatus.PUBLISHED ∧
      (jobRowEvergreen.expiresAt = none ∨
        ∃ t, jobRowEvergreen.expiresAt = some t ∧ (5:Int) < t)) :=
  ⟨by decide, searchJobs_baseline_always {} 5 jobRowEvergreen (by decide)⟩

/-! ## C3 — the salary filter clauses -/

/-- Spec-side meaning of the requested-`salaryMin` clause, following the
spec's words: "job matches if its own salaryMin ≥ requested salaryMin OR
its own salaryMax ≥ requested salaryMin" (a null salary field cannot
witness the inequality). -/
def salaryMinSpec (req : Int) (j : JobRow) : Bool :=
  (match j.salaryMin with
   | some v => req ≤ v
   | none => false) ||
  (match j.salaryMax with
   | some v => req ≤ v
   | none => false)

/-- Spec-side meaning of the requested-`salaryMax` clause: "job matches if
its own salaryMax ≤ requested salaryMax". -/
def salaryMaxSpec (req : Int) (j : JobRow) : Bool :=
  match j.salaryMax with
  | some v => v ≤ req
  | none => false

/-- Appending conditions to the `AND` array conjoins their evaluations. -/
lemma eval_AND_extend (w : WhereClause) (ds : List AndCond) (j : JobRow) :
    ({ w with AND := some (w.AND.getD [] ++ ds) } : WhereClause).eval j =
      (w.eval j && ds.all (AndCond.eval j)) := by
  cases hA : w.AND with
  | none =>
    unfold WhereClause.eval
    rw [hA]
    simp only [Option.getD_none, Option.getD_some, List.nil_append]
    cases hs : (match w.status with
      | none => true
      | some s => decide (j.status = s)) <;>
      simp [Bool.and_assoc, Bool.and_comm, Bool.and_left_comm]
  | some cs =>
    unfold WhereClause.eval
    rw [hA]
    simp only [Option.getD_none, Option.getD_some, List.all_append]
    cases hs : (match w.status with
      | none => true
      | some s => decide (j.status = s)) <;>
      simp [Bool.and_assoc, Bool.and_comm, Bool.and_left_comm]

/-- Setting the `AND` array conjoins its evaluation onto the clause with
no `AND` key. -/
lemma eval_AND_set (w : WhereClause) (cs : List AndCond) (j : JobRow) :
    ({ w with AND := some cs } : WhereClause).eval j =
      (({ w with AND := none } : WhereClause).eval j && cs.all (AndCond.eval j)) := by
  unfold WhereClause.eval
  cases hs : (match w.status with
    | none => true
    | some s => decide (j.status = s)) <;>
    simp [Bool.and_assoc, Bool.and_comm, Bool.and_left_comm]

/-- A where clause evaluates as its `AND`-free part conjoined with its
`AND` array (an absent array being the empty conjunction). -/
lemma eval_AND_getD (w : WhereClause) (j : JobRow) :
    w.eval j =
      (({ w with AND := none } : WhereClause).eval j &&
        (w.AND.getD []).all (AndCond.eval j)) := by
  cases hA : w.AND with
  | none =>
    unfold WhereClause.eval
    rw [hA]
    simp
  | some cs =>
    unfold WhereClause.eval
    rw [hA]
    cases hs : (match w.status with
      | none => true
      | some s => decide (j.status = s)) <;>
      simp [Bool.and_assoc, Bool.and_comm, Bool.and_left_comm]

/-- The pushed salaryMin `OR` block evaluates to the spec's disjunction. -/
lemma minClause_eval (m : Int) (j : JobRow) :
    AndCond.eval j (.anyOf [.salaryMinGte m, .salaryMaxGte m]) = salaryMinSpec m j := by
  unfold AndCond.eval salaryMinSpec
  cases hmin : j.salaryMin <;> cases hmax : j.salaryMax <;>
    simp [JobCond.eval, hmin, hmax]

/-- The pushed salaryMax block evaluates to the spec's upper bound. -/
lemma maxClause_eval (m : Int) (j : JobRow) :
    AndCond.eval j (.leaf (.salaryMaxLte m)) = salaryMaxSpec m j := by
  unfold AndCond.eval salaryMaxSpec
  cases hmax : j.salaryMax <;> simp [JobCond.eval, hmax]

/-- `truthyInt` and `truthyStr` on an absent value. -/
lemma truthyInt_none : truthyInt none = false := rfl

lemma truthyStr_none : truthyStr none = false := rfl

/-- A truthy `salaryMin` contributes exactly the spec disjunction as one
more conjunct of the salary stage. -/
lemma addSalary_eval_min (f : JobFilters) (w : WhereClause) (j : JobRow)
    (hm : truthyInt f.salaryMin = true) :
    (addSalary f w).eval j =
      ((addSalary { f with salaryMin := none } w).eval j &&
        salaryMinSpec (f.salaryMin.getD 0) j) := by
  cases hM : truthyInt f.salaryMax with
  | true =>
    simp [addSalary, hm, hM, truthyInt_none, -Bool.and_eq_true]
    rw [eval_AND_set, eval_AND_set]
    simp [List.all_append, minClause_eval, maxClause_eval,
      Bool.and_assoc, Bool.and_comm, Bool.and_left_comm]
  | false =>
    simp [addSalary, hm, hM, truthyInt_none, -Bool.and_eq_true]
    rw [eval_AND_set, eval_AND_getD w]
    simp [List.all_append, minClause_eval,
      Bool.and_assoc, Bool.and_comm, Bool.and_left_comm]

/-- A truthy `salaryMax` contributes exactly the spec upper bound as one
more conjunct of the salary stage. -/
lemma addSalary_eval_max (f : JobFilters) (w : WhereClause) (j : JobRow)
    (hM : truthyInt f.salaryMax = true) :
    (addSalary f w).eval j =
      ((addSalary { f with salaryMax := none } w).eval j &&
        salaryMaxSpec (f.salaryMax.getD 0) j) := by
  cases hm : truthyInt f.salaryMin with
  | true =>
    simp [addSalary, hm, hM, truthyInt_none, -Bool.and_eq_true]
    rw [eval_AND_set, eval_AND_set]
    simp [List.all_append, minClause_eval, maxClause_eval,
      Bool.and_assoc, Bool.and_comm, Bool.and_left_comm]
  | false =>
    simp [addSalary, hm, hM, truthyInt_none, -Bool.and_eq_true]
    rw [eval_AND_set, eval_AND_getD w]
    simp [List.all_append, maxClause_eval,
      Bool.and_assoc, Bool.and_comm, Bool.and_left_comm]

/-- The conjunct the skills stage contributes (true when no skills filter
applies). -/
def skillsPart (f : JobFilters) (j : JobRow) : Bool :=
  match f.skills with
  | none => true
  | some ss =>
    if ss.length > 0 then j.skillIds.any (fun sk => ss.contains sk) else true

/-- Setting the skills key conjoins the skills condition. -/
lemma eval_skills_set (w : WhereClause) (ss : List String) (j : JobRow)
    (h : w.jobSkillsSomeIn = none) :
    ({ w with jobSkillsSomeIn := some ss } : WhereClause).eval j =
      (w.eval j && j.skillIds.any (fun sk => ss.contains sk)) := by
  unfold WhereClause.eval
  simp only [h]
  cases hs : (match w.status with
    | none => true
    | some s => decide (j.status = s)) <;>
    simp [Bool.and_assoc, Bool.and_comm, Bool.and_left_comm]

/-- The skills stage evaluates as the clause before it conjoined with the
skills condition. -/
lemma addSkills_eval (f : JobFilters) (w : WhereClause) (j : JobRow)
    (h : w.jobSkillsSomeIn = none) :
    (addSkills f w).eval j = (w.eval j && skillsPart f j) := by
  unfold addSkills skillsPart
  cases hsk : f.skills with
  | none => simp
  | some ss =>
    by_cases hlen : ss.length > 0
    · simp only [hlen, if_true, reduceIte]
      exact eval_skills_set w ss j h
    · simp [hlen]

/-- C3 (amended): supplying a nonzero `salaryMin` makes the compiled
predicate the predicate of the same request without `salaryMin` conjoined
with "job's salaryMin ≥ requested OR job's salaryMax ≥ requested"; likewise
a nonzero `salaryMax` conjoins "job's salaryMax ≤ requested"; hence each
supplied bound contributes exactly its own clause, and both together apply
in conjunction.  (Amendment: a bound supplied as `0` is falsy and skipped,
see the C3 counterexample and C10.) -/
theorem searchJobs_salary_clauses (f : JobFilters) (now : Int) (j : JobRow) :
    (∀ m : Int, f.salaryMin = some m → m ≠ 0 →
      (buildWhereClause f now).eval j =
        ((buildWhereClause { f with salaryMin := none } now).eval j &&
          salaryMinSpec m j)) ∧
    (∀ M : Int, f.salaryMax = some M → M ≠ 0 →
      (buildWhereClause f now).eval j =
        ((buildWhereClause { f with salaryMax := none } now).eval j &&
          salaryMaxSpec M j)) := by
  have hP : (addExperienceLevel f (addIsRemote f (addLocation f (addType f
      (addCategory f (addSearch f (publishedActiveWhere now))))))).jobSkillsSomeIn
      = none := by
    rw [addExperienceLevel_jobSkillsSomeIn, addIsRemote_jobSkillsSomeIn,
      addLocation_jobSkillsSomeIn, addType_jobSkillsSomeIn,
      addCategory_jobSkillsSomeIn, addSearch_jobSkillsSomeIn]
    rfl
  constructor
  · intro m hm hm0
    have htr : truthyInt f.salaryMin = true := by
      rw [hm]; simp [truthyInt, hm0]
    have h1 : (buildWhereClause f now).eval j =
        ((addSalary f (addExperienceLevel f (addIsRemote f (addLocation f
          (addType f (addCategory f (addSearch f (publishedActiveWhere now)))))))).eval j
          && skillsPart f j) := by
      exact addSkills_eval f _ j (by rw [addSalary_jobSkillsSomeIn]; exact hP)
    have h2 : (buildWhereClause { f with salaryMin := none } now).eval j =
        ((addSalary { f with salaryMin := none } (addExperienceLevel f (addIsRemote f
          (addLocation f (addType f (addCategory f (addSearch f
          (publishedActiveWhere now)))))))).eval j && skillsPart f j) := by
      exact addSkills_eval f _ j (by rw [addSalary_jobSkillsSomeIn]; exact hP)
    rw [h1, h2, addSalary_eval_min f _ j htr, hm]
    simp [Bool.and_assoc, Bool.and_comm, Bool.and_left_comm]
  · intro M hM hM0
    have htr : truthyInt f.salaryMax = true := by
      rw [hM]; simp [truthyInt, hM0]
    have h1 : (buildWhereClause f now).eval j =
        ((addSalary f (addExperienceLevel f (addIsRemote f (addLocation f
          (addType f (addCategory f (addSearch f (publishedActiveWhere now)))))))).eval j
          && skillsPart f j) := by
      exact addSkills_eval f _ j (by rw [addSalary_jobSkillsSomeIn]; exact hP)
    have h2 : (buildWhereClause { f with salaryMax := none } now).eval j =
        ((addSalary { f with salaryMax := none } (addExperienceLevel f (addIsRemote f
          (addLocation f (addType f (addCategory f (addSearch f
          (publishedActiveWhere now)))))))).eval j && skillsPart f j) := by
      exact addSkills_eval f _ j (by rw [addSalary_jobSkillsSomeIn]; exact hP)
    rw [h1, h2, addSalary_eval_max f _ j htr, hM]
    simp [Bool.and_assoc, Bool.and_comm, Bool.and_left_comm]

/-- A published, never-expiring job row with no salary data. -/
def jobRowNoSalary : JobRow :=
  { id := "job-3", title := "Intern", description := "Learn"
    requirements := none, responsibilities := none, jobType := "INTERNSHIP"
    experienceLevel := "ENTRY", salaryMin := none, salaryMax := none
    location := none, isRemote := true, status := .PUBLISHED
    expiresAt := none, categoryId := none, companyName := "Acme"
    skillIds := [] }

/-- C3 counterexample: the request supplying `salaryMin = 0` compiles a
predicate that admits a job with no salary data, although the claimed
disjunction "job.salaryMin ≥ 0 OR job.salaryMax ≥ 0" is false for that
job (`null` fields fail `gte`): the claimed equivalence fails for a
supplied `salaryMin` of 0, because `0` is falsy and the clause is
skipped. -/
theorem searchJobs_salary_zero_counterexample :
    (({ salaryMin := some 0 } : JobFilters).salaryMin = some 0) ∧
    (buildWhereClause { salaryMin := some 0 } 0).eval jobRowNoSalary = true ∧
    salaryMinSpec 0 jobRowNoSalary = false := by
  decide

/-- Witness for `searchJobs_salary_clauses`: requesting `salaryMin = 5000`
on the evergreen row (salaryMax 6000) multiplies in exactly the spec
disjunction, which holds for that row. -/
theorem searchJobs_salary_clauses_witness :
    (({ salaryMin := some 5000 } : JobFilters).salaryMin = some 5000) ∧
    ((5000:Int) ≠ 0) ∧
    (buildWhereClause { salaryMin := some 5000 } 0).eval jobRowEvergreen =
      ((buildWhereClause
          { ({ salaryMin := some 5000 } : JobFilters) with salaryMin := none } 0).eval
            jobRowEvergreen &&
        salaryMinSpec 5000 jobRowEvergreen) :=
  ⟨rfl, by decide,
   (searchJobs_salary_clauses { salaryMin := some 5000 } 0 jobRowEvergreen).1
     5000 rfl (by decide)⟩

/-! ## C7 — duplicate applications -/

/-- The storage-level uniqueness invariant of the compound key
`jobId_applicantId`: no two application rows share a (job, applicant)
pair. -/
def pairUnique (db : DB) : Prop :=
  db.applications.Pairwise
    (fun a b => ¬(a.jobId = b.jobId ∧ a.applicantId = b.applicantId))

/-- Inversion of a successful `applyToJob`: success implies no prior
application existed, and the only write is the appended PENDING row. -/
lemma applyToJob_ok_inv (db : DB) (jobId userId : String)
    (data : ApplyToJobData) (now : Int) (db2 : DB)
    (hok : applyToJob db jobId userId data now = .ok db2) :
    findApplication db jobId userId = none ∧
    ∃ user, findUser db userId = some user ∧
      db2 = { db with applications := db.applications ++
        [{ jobId := jobId, applicantId := userId,
           coverLetter := data.coverLetter.map String.trim,
           resumeUrl := jsStrOr data.resumeUrl user.resumeUrl,
           status := .PENDING }] } := by
  unfold applyToJob at hok
  split at hok
  · exact Except.noConfusion hok
  · split at hok
    · exact Except.noConfusion hok
    · split at hok
      · exact Except.noConfusion hok
      · split at hok
        · exact Except.noConfusion hok
        · next user hu =>
          split at hok
          · exact Except.noConfusion hok
          · split at hok
            · exact Except.noConfusion hok
            · next hdup =>
              simp only [Except.ok.injEq] at hok
              subst hok
              refine ⟨?_, user, hu, rfl⟩
              cases hfa : findApplication db jobId userId with
              | none => rfl
              | some a => rw [hfa] at hdup; simp at hdup

/-- C7 (amended): when an application by the applicant for the job already
exists, `applyToJob` never inserts (no `.ok` result is possible); it fails
with Conflict 409 exactly when the earlier guards pass (job exists and is
PUBLISHED and unexpired, actor exists with role JOB_SEEKER), and with the
corresponding earlier guard's error otherwise; moreover any successful
`applyToJob` preserves at-most-one-application-per-(job, applicant). -/
theorem applyToJob_duplicate (db : DB) (jobId userId : String)
    (data : ApplyToJobData) (now : Int) :
    ((findApplication db jobId userId).isSome = true →
      ∀ db2, applyToJob db jobId userId data now ≠ .ok db2) ∧
    ((findApplication db jobId userId).isSome = true →
      ∀ job user, findJob db jobId = some job → job.status = .PUBLISHED →
        applyExpired job now = false → findUser db userId = some user →
        user.role = .JOB_SEEKER →
        applyToJob db jobId userId data now =
          .error ⟨"You have already applied to this job", 409⟩) ∧
    (∀ db2, pairUnique db → applyToJob db jobId userId data now = .ok db2 →
      pairUnique db2) := by
  refine ⟨?_, ?_, ?_⟩
  · intro hdup db2 hok
    obtain ⟨hnone, -⟩ := applyToJob_ok_inv db jobId userId data now db2 hok
    rw [hnone] at hdup
    simp at hdup
  · intro hdup job user hj hpub hexp hu hrole
    simp [applyToJob, hj, hu, hpub, hexp, hrole, hdup]
  · intro db2 huniq hok
    obtain ⟨hnone, user, hu, rfl⟩ :=
      applyToJob_ok_inv db jobId userId data now db2 hok
    have hall := List.find?_eq_none.mp hnone
    unfold pairUnique
    simp only []
    rw [List.pairwise_append]
    refine ⟨huniq, List.pairwise_singleton _ _, ?_⟩
    intro a ha b hb
    simp only [List.mem_singleton] at hb
    subst hb
    have hna := hall a ha
    simp only [Bool.and_eq_true, decide_eq_true_eq] at hna
    intro hcontra
    exact hna ⟨hcontra.1, hcontra.2⟩

/-- A store whose single job is CLOSED and already has an application by
the job seeker `u1`. -/
def dbClosedJob : DB :=
  { jobs := [{ id := "j1", companyId := "c1", status := .CLOSED,
               expiresAt := none, updatedAt := 0 }]
    companies := [{ id := "c1", ownerId := "e1" }]
    users := [{ id := "u1", role := .JOB_SEEKER, resumeUrl := none }]
    applications := [{ jobId := "j1", applicantId := "u1",
                       coverLetter := none, resumeUrl := none,
                       status := .PENDING }]
    jobSkills := [] }

/-- C7 counterexample: an Application row by `u1` for `j1` exists, yet a
further `applyToJob` call fails with the 400 "not accepting applications"
error (the job is CLOSED), not with the claimed Conflict 409. -/
theorem applyToJob_duplicate_counterexample :
    (findApplication dbClosedJob "j1" "u1").isSome = true ∧
    applyToJob dbClosedJob "j1" "u1" {} 0 =
      .error ⟨"This job is not accepting applications", 400⟩ ∧
    (⟨"This job is not accepting applications", 400⟩ : AppError).statusCode ≠ 409 := by
  refine ⟨by decide, by rfl, by decide⟩

/-- A store whose single job is PUBLISHED and unexpired, with an existing
application by the job seeker `u1`. -/
def dbOpenJobApplied : DB :=
  { jobs := [{ id := "j1", companyId := "c1", status := .PUBLISHED,
               expiresAt := none, updatedAt := 0 }]
    companies := [{ id := "c1", ownerId := "e1" }]
    users := [{ id := "u1", role := .JOB_SEEKER, resumeUrl := none }]
    applications := [{ jobId := "j1", applicantId := "u1",
                       coverLetter := none, resumeUrl := none,
                       status := .PENDING }]
    jobSkills := [] }

/-- Witness for `applyToJob_duplicate`: with the job still PUBLISHED and
unexpired and the actor a JOB_SEEKER, the duplicate attempt yields the
Conflict 409 error. -/
theorem applyToJob_duplicate_witness :
    (findApplication dbOpenJobApplied "j1" "u1").isSome = true ∧
    applyToJob dbOpenJobApplied "j1" "u1" {} 0 =
      .error ⟨"You have already applied to this job", 409⟩ :=
  ⟨by rfl,
   (applyToJob_duplicate dbOpenJobApplied "j1" "u1" {} 0).2.1 (by decide)
     { id := "j1", companyId := "c1", status := .PUBLISHED,
       expiresAt := none, updatedAt := 0 }
     { id := "u1", role := .JOB_SEEKER, resumeUrl := none }
     (by decide) rfl (by decide) (by decide) rfl⟩

/-! ## C8 — deleteJob and applications -/

/-- C8: for a job owned by the acting user, `deleteJob` fails with the 400
InvalidInput error (performing no write) when the job has at least one
application, and with zero applications it succeeds, removing exactly the
job row and every `JobSkill` row of the job while leaving companies,
users and applications untouched. -/
theorem deleteJob_applications_guard (db : DB) (jobId userId : String)
    (job : Job) (company : Company)
    (hj : findJob db jobId = some job)
    (hc : findCompany db job.companyId = some company)
    (ho : company.ownerId = userId) :
    (countApplications db jobId > 0 →
      deleteJob db jobId userId =
        .error ⟨"Cannot delete job with existing applications. Close the job instead.", 400⟩) ∧
    (countApplications db jobId = 0 →
      deleteJob db jobId userId = .ok
        { jobs := db.jobs.filter (fun x => x.id ≠ jobId)
          companies := db.companies
          users := db.users
          applications := db.applications
          jobSkills := db.jobSkills.filter (fun s => s.jobId ≠ jobId) }) := by
  constructor
  · intro hcount
    simp [deleteJob, hj, hc, ho, Nat.pos_iff_ne_zero.mp hcount]
  · intro hcount
    simp [deleteJob, hj, hc, ho, hcount, deleteJobRow]

/-- A store with one owned job, one skill association and no
applications. -/
def dbDeletable : DB :=
  { jobs := [{ id := "j1", companyId := "c1", status := .DRAFT,
               expiresAt := none, updatedAt := 0 }]
    companies := [{ id := "c1", ownerId := "e1" }]
    users := [{ id := "e1", role := .EMPLOYER, resumeUrl := none }]
    applications := []
    jobSkills := [{ jobId := "j1", skillId := "s1", isRequired := true },
                  { jobId := "j2", skillId := "s2", isRequired := true }] }

/-- Witness for `deleteJob_applications_guard`: deleting the owned,
application-free job removes it and its skill association only. -/
theorem deleteJob_applications_guard_witness :
    findJob dbDeletable "j1" =
      some { id := "j1", companyId := "c1", status := .DRAFT,
             expiresAt := none, updatedAt := 0 } ∧
    countApplications dbDeletable "j1" = 0 ∧
    deleteJob dbDeletable "j1" "e1" = .ok
      { jobs := []
        companies := dbDeletable.companies
        users := dbDeletable.users
        applications := []
        jobSkills := [{ jobId := "j2", skillId := "s2", isRequired := true }] } :=
  ⟨by rfl, by rfl,
   by
    have h := (deleteJob_applications_guard dbDeletable "j1" "e1"
      { id := "j1", companyId := "c1", status := .DRAFT,
        expiresAt := none, updatedAt := 0 }
      { id := "c1", ownerId := "e1" } (by rfl) (by rfl) rfl).2 (by rfl)
    rw [h]
    rfl⟩

/-! ## C9 — expireOldJobs -/

/-- A store with one published job expiring at instant 11. -/
def dbLateExpiry : DB :=
  { jobs := [{ id := "j1", companyId := "c1", status := .PUBLISHED,
               expiresAt := some 11, updatedAt := 0 }]
    companies := [], users := [], applications := [], jobSkills := [] }

/-- C9 counterexample: with a non-decreasing `now` (10 then 11), a second
immediately following `expireOldJobs` call mutates one additional row and
returns 1, not 0 — a job whose `expiresAt` lies between the two instants
is newly swept by the second call. -/
theorem expireOldJobs_second_call_counterexample :
    (expireOldJobs dbLateExpiry 10).2 = 0 ∧
    ((10 : Int) ≤ 11) ∧
    (expireOldJobs (expireOldJobs dbLateExpiry 10).1 11).2 = 1 := by
  decide

/-- The sweep's per-row update leaves no row still eligible. -/
lemma shouldExpire_after_update (now : Int) (j : Job) :
    shouldExpire now
      (if shouldExpire now j then { j with status := .EXPIRED, updatedAt := now }
       else j) = false := by
  by_cases h : shouldExpire now j = true
  · simp only [h, if_true, reduceIte]
    simp [shouldExpire]
  · rw [Bool.not_eq_true] at h
    simp [h]

/-- The sweep's per-row update is idempotent. -/
lemma expireUpdate_idem (now : Int) (j : Job) :
    (fun x => if shouldExpire now x then
        ({ x with status := .EXPIRED, updatedAt := now } : Job) else x)
      ((fun x => if shouldExpire now x then
        ({ x with status := .EXPIRED, updatedAt := now } : Job) else x) j) =
    (fun x => if shouldExpire now x then
        ({ x with status := .EXPIRED, updatedAt := now } : Job) else x) j := by
  have h := shouldExpire_after_update now j
  simp only [] at h ⊢
  rw [h]
  simp

/-- C9 (amended): `expireOldJobs` mutates exactly the PUBLISHED jobs with
`expiresAt ≤ now`, setting them EXPIRED, returns the number of such jobs,
touches nothing else, and a second immediately following call at the same
instant mutates zero additional rows and returns 0.  (Amendment: with a
strictly later second instant, jobs whose expiry lies between the two
instants are newly mutated, see the counterexample.) -/
theorem expireOldJobs_exact_idempotent (db : DB) (now : Int) :
    ((expireOldJobs db now).2 =
      (db.jobs.filter (fun j => j.status = .PUBLISHED &&
        (match j.expiresAt with
         | some t => t ≤ now
         | none => false))).length) ∧
    ((expireOldJobs db now).1.jobs.length = db.jobs.length) ∧
    (∀ j ∈ db.jobs, shouldExpire now j = true →
      ({ j with status := .EXPIRED, updatedAt := now } : Job) ∈
        (expireOldJobs db now).1.jobs) ∧
    (∀ j ∈ db.jobs, shouldExpire now j = false →
      j ∈ (expireOldJobs db now).1.jobs) ∧
    (∀ j ∈ (expireOldJobs db now).1.jobs, shouldExpire now j = false) ∧
    ((expireOldJobs db now).1.companies = db.companies ∧
      (expireOldJobs db now).1.users = db.users ∧
      (expireOldJobs db now).1.applications = db.applications ∧
      (expireOldJobs db now).1.jobSkills = db.jobSkills) ∧
    (expireOldJobs (expireOldJobs db now).1 now = ((expireOldJobs db now).1, 0)) := by
  refine ⟨rfl, by simp [expireOldJobs], ?_, ?_, ?_, ⟨rfl, rfl, rfl, rfl⟩, ?_⟩
  · intro j hj h
    simp only [expireOldJobs, List.mem_map]
    exact ⟨j, hj, by rw [h]; simp⟩
  · intro j hj h
    simp only [expireOldJobs, List.mem_map]
    exact ⟨j, hj, by rw [h]; simp⟩
  · intro j hj
    simp only [expireOldJobs, List.mem_map] at hj
    obtain ⟨a, -, rfl⟩ := hj
    exact shouldExpire_after_update now a
  · have hmap : ((db.jobs.map (fun x =>
        if shouldExpire now x then
          ({ x with status := .EXPIRED, updatedAt := now } : Job) else x)).map (fun x =>
        if shouldExpire now x then
          ({ x with status := .EXPIRED, updatedAt := now } : Job) else x)) =
        db.jobs.map (fun x =>
          if shouldExpire now x then
            ({ x with status := .EXPIRED, updatedAt := now } : Job) else x) := by
      rw [List.map_map]
      refine List.map_congr_left ?_
      intro x _
      exact expireUpdate_idem now x
    have hfilter : ((db.jobs.map (fun x =>
        if shouldExpire now x then
          ({ x with status := .EXPIRED, updatedAt := now } : Job) else x)).filter
          (shouldExpire now)) = [] := by
      rw [List.filter_eq_nil_iff]
      intro a ha
      simp only [List.mem_map] at ha
      obtain ⟨x, -, rfl⟩ := ha
      simp [shouldExpire_after_update now x]
    unfold expireOldJobs
    rw [Prod.ext_iff]
    refine ⟨?_, ?_⟩
    · simp only []
      rw [hmap]
    · simp only []
      rw [hfilter]
      rfl

/-- Witness for `expireOldJobs_exact_idempotent`: at instant 11 the job of
`dbLateExpiry` is eligible and its EXPIRED copy is in the swept store, and
the second sweep at the same instant is a no-op returning 0. -/
theorem expireOldJobs_exact_idempotent_witness :
    ({ id := "j1", companyId := "c1", status := .PUBLISHED,
       expiresAt := some 11, updatedAt := 0 } : Job) ∈ dbLateExpiry.jobs ∧
    shouldExpire 11
      ({ id := "j1", companyId := "c1", status := .PUBLISHED,
         expiresAt := some 11, updatedAt := 0 } : Job) = true ∧
    ({ id := "j1", companyId := "c1", status := .EXPIRED,
       expiresAt := some 11, updatedAt := 11 } : Job) ∈
      (expireOldJobs dbLateExpiry 11).1.jobs ∧
    expireOldJobs (expireOldJobs dbLateExpiry 11).1 11 =
      ((expireOldJobs dbLateExpiry 11).1, 0) :=
  ⟨by decide, by decide,
   (expireOldJobs_exact_idempotent dbLateExpiry 11).2.2.1
     { id := "j1", companyId := "c1", status := .PUBLISHED,
       expiresAt := some 11, updatedAt := 0 } (by decide) (by decide),
   (expireOldJobs_exact_idempotent dbLateExpiry 11).2.2.2.2.2.2⟩
